import Mathlib

set_option maxHeartbeats 1000000

/-
Shallow embedding of the event-dispatch and mode state machine of the
`pep` modal terminal editor (src/editor.rs).

Conventions of the embedding:
* Cursor coordinates are `u16` in the source; they are modelled as `Nat`
  with an explicit `% 65536` at each addition where overflow can occur
  (wrapping semantics of machine addition).
* Terminal commands (queued or executed) are recorded chronologically in
  the `out : List TermCmd` trace; the distinction between `queue` and
  `execute`/`flush` does not matter for the properties below, only the
  order of emission does.
* `Window` (the buffer), `Config` and `KeyAction` live outside the given
  source file; their shapes are modelled from the spec and from how
  editor.rs consumes them.  Delegated buffer operations are recorded as
  events in a `calls : List BufCall` trace; the outcome of the external
  `save` operation is an oracle field `saveResult` (the display text of
  the error, or `none` for success).
* `std::process::exit(0)` is modelled by the `StepResult.exited` result,
  which carries the exit code and the final state (with its trace of
  terminal commands emitted before the exit).
-/

namespace Pep

/-- Editing mode, from enum Mode in src/editor.rs. -/
inductive Mode
  | Normal
  | Insert
deriving DecidableEq

/-- Primitive editor actions, from enum Action in src/editor.rs. -/
inductive Action
  | Quit
  | MoveUp
  | MoveDown
  | MoveLeft
  | MoveRight
  | InsertMode
  | DeleteUnderCursor
  | NormalMode
  | Save
  | InsertLineAfter
  | InsertLineAbove
deriving DecidableEq

/-- Modelled from the spec: KeyAction is defined in the config module
(not in the given source); editor.rs matches the four shapes
Single, Multiple, Nested and Repeating. -/
inductive KeyAction
  | Single (a : Action)
  | Multiple (l : List Action)
  | Nested (m : List (String × KeyAction))
  | Repeating (n : Nat) (k : KeyAction)

/-- Modelled from the spec: the keymap surface consumed by editor.rs is
config.keys.normal, a mapping from key strings to KeyAction values,
modelled as an association list. -/
structure Keys where
  normal : List (String × KeyAction)

/-- Modelled from the spec: the configuration value, of which editor.rs
only consumes the keymap. -/
structure Config where
  keys : Keys

/-- Cursor position; both coordinates are u16 in the source, modelled as
Nat kept below 65536. -/
structure Cursor where
  x : Nat
  y : Nat
deriving DecidableEq

/-- Trace events for the delegated buffer operations (the Window surface
consumed by editor.rs; the Window internals are external to the given
source). -/
inductive BufCall
  | insert (text : String)
  | insert_line_below
  | insert_line_above
  | delete_under_cursor
  | save
deriving DecidableEq

/-- Modelled from the spec: the Window (buffer) fields editor.rs reads and
writes, plus the trace of delegated operations and the oracle for the
outcome of the external save operation. -/
structure Window where
  mode : Mode
  cursor : Cursor
  buffer : List String
  render_buffer : Bool
  saveResult : Option String
  calls : List BufCall

/-- Cursor styles the dispatcher queues, from crossterm SetCursorStyle. -/
inductive CursorStyle
  | BlinkingBar
  | DefaultUserShape
deriving DecidableEq

/-- Terminal commands emitted by the editor (queued or executed),
recorded chronologically. -/
inductive TermCmd
  | MoveTo (x y : Nat)
  | SetStyle (s : CursorStyle)
  | ClearAll
  | EnterAlternateScreen
  | LeaveAlternateScreen
  | EnableRaw
  | DisableRaw
  | Print (s : String)
deriving DecidableEq

/-- The Editor state, from struct Editor in src/editor.rs, extended with
the error-stream trace (stderr writes). -/
structure Editor where
  out : List TermCmd
  config : Config
  current_buffer : Window
  alt_buffers : List Window
  errStream : List String

/-- Result of handling one action or event: either the editor continues
with the new state, or the process exits with the given code (the state
carries everything emitted before the exit). -/
inductive StepResult
  | cont (s : Editor)
  | exited (code : Nat) (s : Editor)

/-- The state carried by a step result. -/
def StepResult.state : StepResult → Editor
  | StepResult.cont s => s
  | StepResult.exited _ s => s

/-- Whether a step result lets the editor keep running. -/
def StepResult.isCont : StepResult → Bool
  | StepResult.cont _ => true
  | StepResult.exited _ _ => false

/-- Editor::move_cursor — set both cursor coordinates and queue a
terminal cursor move to the same position. -/
def move_cursor (s : Editor) (x y : Nat) : Editor :=
  { s with
    current_buffer := { s.current_buffer with cursor := ⟨x, y⟩ },
    out := s.out ++ [TermCmd.MoveTo x y] }

/-- Editor::enter_insert_mode — set the buffer mode to Insert and queue
the blinking-bar cursor style. -/
def enter_insert_mode (s : Editor) : Editor :=
  { s with
    current_buffer := { s.current_buffer with mode := Mode.Insert },
    out := s.out ++ [TermCmd.SetStyle CursorStyle.BlinkingBar] }

/-- Editor::enter_normal_mode — set the buffer mode to Normal and queue
the default cursor style. -/
def enter_normal_mode (s : Editor) : Editor :=
  { s with
    current_buffer := { s.current_buffer with mode := Mode.Normal },
    out := s.out ++ [TermCmd.SetStyle CursorStyle.DefaultUserShape] }

/-- Record a delegated buffer operation in the call trace. -/
def bufCall (s : Editor) (c : BufCall) : Editor :=
  { s with
    current_buffer := { s.current_buffer with calls := s.current_buffer.calls ++ [c] } }

/-- The u16 modulus: cursor coordinate additions wrap at 2^16. -/
def U16MOD : Nat := 65536

/-- Editor::handle_single_action — dispatch one primitive action. -/
def handle_single_action (s : Editor) (a : Action) : StepResult :=
  match a with
  | Action.Quit =>
      StepResult.exited 0
        { s with out := s.out ++ [TermCmd.LeaveAlternateScreen, TermCmd.DisableRaw] }
  | Action.MoveUp =>
      if s.current_buffer.cursor.y > 0 then
        StepResult.cont
          (move_cursor s s.current_buffer.cursor.x (s.current_buffer.cursor.y - 1))
      else
        StepResult.cont
          (move_cursor s s.current_buffer.cursor.x s.current_buffer.cursor.y)
  | Action.MoveDown =>
      StepResult.cont
        (move_cursor s s.current_buffer.cursor.x ((s.current_buffer.cursor.y + 1) % U16MOD))
  | Action.MoveLeft =>
      if s.current_buffer.cursor.x > 0 then
        StepResult.cont
          (move_cursor s (s.current_buffer.cursor.x - 1) s.current_buffer.cursor.y)
      else
        StepResult.cont
          (move_cursor s s.current_buffer.cursor.x s.current_buffer.cursor.y)
  | Action.MoveRight =>
      StepResult.cont
        (move_cursor s ((s.current_buffer.cursor.x + 1) % U16MOD) s.current_buffer.cursor.y)
  | Action.InsertMode => StepResult.cont (enter_insert_mode s)
  | Action.NormalMode => StepResult.cont (enter_normal_mode s)
  | Action.InsertLineAfter => StepResult.cont (bufCall s BufCall.insert_line_below)
  | Action.InsertLineAbove => StepResult.cont (bufCall s BufCall.insert_line_above)
  | Action.DeleteUnderCursor => StepResult.cont (bufCall s BufCall.delete_under_cursor)
  | Action.Save =>
      match s.current_buffer.saveResult with
      | none => StepResult.cont (bufCall s BufCall.save)
      | some e =>
          StepResult.cont
            { bufCall s BufCall.save with errStream := s.errStream ++ [e] }

/-- Editor::handle_key_event — only the Single shape reaches the
primitive handler; the other shapes and an absent binding do nothing. -/
def handle_key_event (s : Editor) (action : Option KeyAction) : StepResult :=
  match action with
  | some (KeyAction.Single a) => handle_single_action s a
  | some (KeyAction.Multiple _) => StepResult.cont s
  | some (KeyAction.Nested _) => StepResult.cont s
  | some (KeyAction.Repeating _ _) => StepResult.cont s
  | none => StepResult.cont s

/-- Keyboard modifier flags, from crossterm KeyModifiers (a bitflags
value); the source matches it against the SHIFT and CONTROL constants
by exact equality. -/
structure KeyModifiers where
  shift : Bool
  control : Bool
  alt : Bool
  superKey : Bool
  hyper : Bool
  metaKey : Bool
deriving DecidableEq

/-- The empty modifier set. -/
def KeyModifiers.NONE : KeyModifiers := ⟨false, false, false, false, false, false⟩

/-- Exactly the Shift flag. -/
def KeyModifiers.SHIFT : KeyModifiers := ⟨true, false, false, false, false, false⟩

/-- Exactly the Control flag. -/
def KeyModifiers.CONTROL : KeyModifiers := ⟨false, true, false, false, false, false⟩

/-- Key codes of key events, from crossterm KeyCode (the source only
distinguishes Char and Esc; every other code falls through). -/
inductive KeyCode
  | Backspace
  | Enter
  | ArrowLeft
  | ArrowRight
  | ArrowUp
  | ArrowDown
  | Home
  | EndKey
  | PageUp
  | PageDown
  | Tab
  | BackTab
  | Delete
  | InsertKey
  | F (n : Nat)
  | Char (c : Char)
  | Null
  | Esc
deriving DecidableEq

/-- Terminal events, from crossterm Event (the source only inspects Key
events). -/
inductive Event
  | FocusGained
  | FocusLost
  | Key (code : KeyCode) (modifiers : KeyModifiers)
  | Mouse
  | Paste (s : String)
  | Resize (w h : Nat)
deriving DecidableEq

/-- Association-list lookup modelling HashMap::get on the keymap. -/
def lookupKey (m : List (String × KeyAction)) (k : String) : Option KeyAction :=
  match m with
  | [] => none
  | (k0, v) :: rest => if k0 = k then some v else lookupKey rest k

/-- The modifier tag of the lookup string: the source matches the
modifier flags against exactly SHIFT, then exactly CONTROL, and falls
through to the empty tag for every other combination. -/
def modTag (modifiers : KeyModifiers) : String :=
  if modifiers = KeyModifiers.SHIFT then "S-"
  else if modifiers = KeyModifiers.CONTROL then "C-"
  else ""

/-- The pure Normal-mode keymap resolver: look the string
modifier-tag ++ character up in the Normal-mode keymap. -/
def resolveNormalKey (config : Config) (c : Char) (modifiers : KeyModifiers) : Option KeyAction :=
  lookupKey config.keys.normal (modTag modifiers ++ c.toString)

/-- Editor::handle_normal_event — resolve a Char key event through the
keymap and dispatch; every other event does nothing.  (The source first
computes an unprefixed lookup that is immediately shadowed by the
prefixed one; the dead binding is omitted.) -/
def handle_normal_event (s : Editor) (event : Event) : StepResult :=
  match event with
  | Event.Key code modifiers =>
      match code with
      | KeyCode.Char c =>
          let modifier :=
            if modifiers = KeyModifiers.SHIFT then "S-"
            else if modifiers = KeyModifiers.CONTROL then "C-"
            else ""
          let action := lookupKey s.config.keys.normal (modifier ++ c.toString)
          match action with
          | some _ => handle_key_event s action
          | none => StepResult.cont s
      | _ => StepResult.cont s
  | _ => StepResult.cont s

/-- Editor::handle_insert_event — a Char key event is delegated to the
buffer insert (bypassing the keymap), Esc returns to Normal mode, every
other event does nothing. -/
def handle_insert_event (s : Editor) (event : Event) : StepResult :=
  match event with
  | Event.Key code _ =>
      match code with
      | KeyCode.Char c => StepResult.cont (bufCall s (BufCall.insert c.toString))
      | KeyCode.Esc => StepResult.cont (enter_normal_mode s)
      | _ => StepResult.cont s
  | _ => StepResult.cont s

/-- The event-routing step of Editor::run — route the event to the
handler selected by the current buffer mode. -/
def routeEvent (s : Editor) (ev : Event) : StepResult :=
  match s.current_buffer.mode with
  | Mode.Normal => handle_normal_event s ev
  | Mode.Insert => handle_insert_event s ev

/-- Route a list of events in order, stopping if the process exits. -/
def routeEvents (s : Editor) : List Event → StepResult
  | [] => StepResult.cont s
  | e :: rest =>
      match routeEvent s e with
      | StepResult.cont s1 => routeEvents s1 rest
      | r => r

/-- The state after dispatching one primitive action (for actions that
do not exit, this is the continuation state). -/
def stepAction (s : Editor) (a : Action) : Editor :=
  (handle_single_action s a).state

/-- Dispatch the same primitive action n times. -/
def iterAction (a : Action) : Nat → Editor → Editor
  | 0, s => s
  | Nat.succ n, s => iterAction a n (stepAction s a)

/-- A fresh Window at the origin in Normal mode with empty traces. -/
def initWindow : Window := ⟨Mode.Normal, ⟨0, 0⟩, [], true, none, []⟩

/-- A concrete configuration binding j to MoveDown and i to InsertMode in
Normal mode (the bindings the spec scenarios use). -/
def scenarioConfig : Config :=
  ⟨⟨[("j", KeyAction.Single Action.MoveDown), ("i", KeyAction.Single Action.InsertMode)]⟩⟩

/-- A concrete editor at cursor (0,0) in Normal mode. -/
def e0 : Editor := ⟨[], scenarioConfig, initWindow, [], []⟩

/-- A concrete editor whose cursor sits at the largest u16 coordinate in
both axes. -/
def eMax : Editor :=
  ⟨[], scenarioConfig, ⟨Mode.Normal, ⟨65535, 65535⟩, [], true, none, []⟩, [], []⟩

/-- A concrete editor whose next save fails with display text "boom". -/
def eFail : Editor :=
  ⟨[], scenarioConfig, ⟨Mode.Normal, ⟨0, 0⟩, [], true, some "boom", []⟩, [], []⟩

/- Helper lemmas about single cursor moves. -/

/-- MoveDown always sets the row to (row + 1) mod 2^16 (u16 addition). -/
theorem stepAction_moveDown_y (s : Editor) :
    (stepAction s Action.MoveDown).current_buffer.cursor.y =
      (s.current_buffer.cursor.y + 1) % U16MOD := rfl

/-- MoveDown leaves the column unchanged. -/
theorem stepAction_moveDown_x (s : Editor) :
    (stepAction s Action.MoveDown).current_buffer.cursor.x =
      s.current_buffer.cursor.x := rfl

/-- MoveRight always sets the column to (column + 1) mod 2^16. -/
theorem stepAction_moveRight_x (s : Editor) :
    (stepAction s Action.MoveRight).current_buffer.cursor.x =
      (s.current_buffer.cursor.x + 1) % U16MOD := rfl

/-- MoveRight leaves the row unchanged. -/
theorem stepAction_moveRight_y (s : Editor) :
    (stepAction s Action.MoveRight).current_buffer.cursor.y =
      s.current_buffer.cursor.y := rfl

/-- MoveUp sets the row to row - 1 (truncated at 0). -/
theorem stepAction_moveUp_y (s : Editor) :
    (stepAction s Action.MoveUp).current_buffer.cursor.y =
      s.current_buffer.cursor.y - 1 := by
  by_cases h : s.current_buffer.cursor.y > 0
  · simp [stepAction, handle_single_action, move_cursor, StepResult.state, h]
  · simp [stepAction, handle_single_action, move_cursor, StepResult.state, h]
    omega

/-- MoveUp leaves the column unchanged. -/
theorem stepAction_moveUp_x (s : Editor) :
    (stepAction s Action.MoveUp).current_buffer.cursor.x =
      s.current_buffer.cursor.x := by
  by_cases h : s.current_buffer.cursor.y > 0 <;>
    simp [stepAction, handle_single_action, move_cursor, StepResult.state, h]

/-- MoveLeft sets the column to column - 1 (truncated at 0). -/
theorem stepAction_moveLeft_x (s : Editor) :
    (stepAction s Action.MoveLeft).current_buffer.cursor.x =
      s.current_buffer.cursor.x - 1 := by
  by_cases h : s.current_buffer.cursor.x > 0
  · simp [stepAction, handle_single_action, move_cursor, StepResult.state, h]
  · simp [stepAction, handle_single_action, move_cursor, StepResult.state, h]
    omega

/-- MoveLeft leaves the row unchanged. -/
theorem stepAction_moveLeft_y (s : Editor) :
    (stepAction s Action.MoveLeft).current_buffer.cursor.y =
      s.current_buffer.cursor.y := by
  by_cases h : s.current_buffer.cursor.x > 0 <;>
    simp [stepAction, handle_single_action, move_cursor, StepResult.state, h]

/-- Iterating MoveUp keeps a zero row at zero. -/
theorem iter_moveUp_zero (n : Nat) : ∀ s : Editor,
    s.current_buffer.cursor.y = 0 →
    (iterAction Action.MoveUp n s).current_buffer.cursor.y = 0 := by
  induction n with
  | zero => intro s h; simpa [iterAction] using h
  | succ n ih =>
      intro s h
      simp only [iterAction]
      exact ih _ (by simp [stepAction_moveUp_y, h])

/-- Iterating MoveLeft keeps a zero column at zero. -/
theorem iter_moveLeft_zero (n : Nat) : ∀ s : Editor,
    s.current_buffer.cursor.x = 0 →
    (iterAction Action.MoveLeft n s).current_buffer.cursor.x = 0 := by
  induction n with
  | zero => intro s h; simpa [iterAction] using h
  | succ n ih =>
      intro s h
      simp only [iterAction]
      exact ih _ (by simp [stepAction_moveLeft_x, h])

/-- C1 counterexample: with the cursor row at 65535 (a position the claim
quantifies over), one MoveDown leaves the row at 0, not at row + 1 — u16
addition wraps, so the increment is not unclamped for every starting
position. -/
theorem c1_counterexample :
    (stepAction eMax Action.MoveDown).current_buffer.cursor.y = 0 ∧
    (stepAction eMax Action.MoveDown).current_buffer.cursor.y ≠
      eMax.current_buffer.cursor.y + 1 := by
  constructor
  · rfl
  · decide

/-- C1 (amended): MoveDown increments the cursor row by 1 with no clamp
against buffer length, for every row below 65535 (the u16 maximum, where
the coordinate wraps instead); the column is unchanged; ten MoveDown
dispatches via key j from (0,0) reach (0,10) and one press reaches (0,1);
MoveRight behaves symmetrically on the column. -/
theorem c1_unclamped_moves :
    (∀ s : Editor, s.current_buffer.cursor.y < 65535 →
      (stepAction s Action.MoveDown).current_buffer.cursor.y =
        s.current_buffer.cursor.y + 1 ∧
      (stepAction s Action.MoveDown).current_buffer.cursor.x =
        s.current_buffer.cursor.x) ∧
    (∀ s : Editor, s.current_buffer.cursor.x < 65535 →
      (stepAction s Action.MoveRight).current_buffer.cursor.x =
        s.current_buffer.cursor.x + 1 ∧
      (stepAction s Action.MoveRight).current_buffer.cursor.y =
        s.current_buffer.cursor.y) ∧
    (routeEvent e0 (Event.Key (KeyCode.Char 'j') KeyModifiers.NONE)).state.current_buffer.cursor =
      ⟨0, 1⟩ ∧
    (routeEvents e0 (List.replicate 10 (Event.Key (KeyCode.Char 'j') KeyModifiers.NONE))).state.current_buffer.cursor =
      ⟨0, 10⟩ := by
  refine ⟨?_, ?_, ?_, ?_⟩
  · intro s h
    refine ⟨?_, stepAction_moveDown_x s⟩
    rw [stepAction_moveDown_y]
    exact Nat.mod_eq_of_lt (by simp [U16MOD]; omega)
  · intro s h
    refine ⟨?_, stepAction_moveRight_y s⟩
    rw [stepAction_moveRight_x]
    exact Nat.mod_eq_of_lt (by simp [U16MOD]; omega)
  · rfl
  · rfl

/-- C1 witness at a concrete input: from row 3 one MoveDown reaches row 4
with the column untouched. -/
theorem c1_witness :
    (stepAction e0 Action.MoveDown).current_buffer.cursor.y = 0 + 1 ∧
    (stepAction e0 Action.MoveDown).current_buffer.cursor.x = 0 :=
  c1_unclamped_moves.1 e0 (by decide)

/-- C2: MoveUp decrements the row when it is positive and leaves it at 0
otherwise, in the latter case still emitting a cursor move to the same
position; MoveLeft does the same on the column; every sequence of MoveUp
from row 0 stays at row 0, and every sequence of MoveLeft from column 0
stays at column 0. -/
theorem c2_clamped_moves :
    (∀ s : Editor, s.current_buffer.cursor.y > 0 →
      (stepAction s Action.MoveUp).current_buffer.cursor.y =
        s.current_buffer.cursor.y - 1 ∧
      (stepAction s Action.MoveUp).current_buffer.cursor.x =
        s.current_buffer.cursor.x) ∧
    (∀ s : Editor, s.current_buffer.cursor.y = 0 →
      stepAction s Action.MoveUp =
        { s with out := s.out ++ [TermCmd.MoveTo s.current_buffer.cursor.x s.current_buffer.cursor.y] }) ∧
    (∀ (s : Editor) (n : Nat), s.current_buffer.cursor.y = 0 →
      (iterAction Action.MoveUp n s).current_buffer.cursor.y = 0) ∧
    (∀ s : Editor, s.current_buffer.cursor.x > 0 →
      (stepAction s Action.MoveLeft).current_buffer.cursor.x =
        s.current_buffer.cursor.x - 1 ∧
      (stepAction s Action.MoveLeft).current_buffer.cursor.y =
        s.current_buffer.cursor.y) ∧
    (∀ s : Editor, s.current_buffer.cursor.x = 0 →
      stepAction s Action.MoveLeft =
        { s with out := s.out ++ [TermCmd.MoveTo s.current_buffer.cursor.x s.current_buffer.cursor.y] }) ∧
    (∀ (s : Editor) (n : Nat), s.current_buffer.cursor.x = 0 →
      (iterAction Action.MoveLeft n s).current_buffer.cursor.x = 0) := by
  refine ⟨?_, ?_, ?_, ?_, ?_, ?_⟩
  · exact fun s _ => ⟨stepAction_moveUp_y s, stepAction_moveUp_x s⟩
  · intro s h
    have h0 : ¬ s.current_buffer.cursor.y > 0 := by omega
    simp only [stepAction, handle_single_action]
    rw [if_neg h0]
    rfl
  · exact fun s n h => iter_moveUp_zero n s h
  · exact fun s _ => ⟨stepAction_moveLeft_x s, stepAction_moveLeft_y s⟩
  · intro s h
    have h0 : ¬ s.current_buffer.cursor.x > 0 := by omega
    simp only [stepAction, handle_single_action]
    rw [if_neg h0]
    rfl
  · exact fun s n h => iter_moveLeft_zero n s h

/-- C2 witness at a concrete input: from (0,0) a MoveUp is a no-op that
still emits a cursor move to (0,0), and ten MoveUp iterations stay at
row 0. -/
theorem c2_witness :
    stepAction e0 Action.MoveUp = { e0 with out := [TermCmd.MoveTo 0 0] } ∧
    (iterAction Action.MoveUp 10 e0).current_buffer.cursor.y = 0 :=
  ⟨c2_clamped_moves.2.1 e0 rfl, c2_clamped_moves.2.2.1 e0 10 rfl⟩

/-- C3 counterexample: with the cursor row at 65535 (which is not 0, so
the claim applies), MoveDown wraps the row to 0 and MoveUp then keeps it
at 0, so the pair does not return the cursor to its original row. -/
theorem c3_counterexample :
    eMax.current_buffer.cursor.y ≠ 0 ∧
    (stepAction (stepAction eMax Action.MoveDown) Action.MoveUp).current_buffer.cursor.y ≠
      eMax.current_buffer.cursor.y := by
  constructor
  · decide
  · decide

/-- C3 (amended): MoveDown then MoveUp returns the cursor to its original
row for every row that is neither 0 nor 65535 (at 65535 the u16 increment
wraps to 0 where the clamped MoveUp absorbs); MoveRight then MoveLeft
symmetrically returns the original column for columns neither 0 nor
65535. -/
theorem c3_inverse_pairs :
    (∀ s : Editor, s.current_buffer.cursor.y ≠ 0 → s.current_buffer.cursor.y < 65535 →
      (stepAction (stepAction s Action.MoveDown) Action.MoveUp).current_buffer.cursor.y =
        s.current_buffer.cursor.y) ∧
    (∀ s : Editor, s.current_buffer.cursor.x ≠ 0 → s.current_buffer.cursor.x < 65535 →
      (stepAction (stepAction s Action.MoveRight) Action.MoveLeft).current_buffer.cursor.x =
        s.current_buffer.cursor.x) := by
  constructor
  · intro s _ h
    rw [stepAction_moveUp_y, stepAction_moveDown_y]
    rw [Nat.mod_eq_of_lt (by simp [U16MOD]; omega)]
    omega
  · intro s _ h
    rw [stepAction_moveLeft_x, stepAction_moveRight_x]
    rw [Nat.mod_eq_of_lt (by simp [U16MOD]; omega)]
    omega

/-- C3 witness at a concrete input: from row 65534 (nonzero, below the
u16 maximum) MoveDown then MoveUp returns to row 65534. -/
theorem c3_witness :
    (stepAction (stepAction
      (⟨[], scenarioConfig, ⟨Mode.Normal, ⟨0, 65534⟩, [], true, none, []⟩, [], []⟩ : Editor)
      Action.MoveDown) Action.MoveUp).current_buffer.cursor.y = 65534 :=
  c3_inverse_pairs.1 _ (by decide) (by decide)

/-- C4: Normal-mode resolution builds the lookup string from a modifier
tag that is "S-" exactly for Shift alone, "C-" exactly for Control alone
and empty otherwise (in particular Shift together with Control resolves
as unmodified), looks it up in the Normal keymap and dispatches the
matched KeyAction or nothing; handling a Char key event equals
dispatching the pure resolver's result (so resolution is a deterministic
function of the configuration, character and modifiers), and
non-character key events never dispatch anything. -/
theorem c4_keymap_resolution :
    modTag KeyModifiers.SHIFT = "S-" ∧
    modTag KeyModifiers.CONTROL = "C-" ∧
    modTag KeyModifiers.NONE = "" ∧
    (∀ m : KeyModifiers, m.shift = true → m.control = true → modTag m = "") ∧
    (∀ (s : Editor) (c : Char) (m : KeyModifiers),
      handle_normal_event s (Event.Key (KeyCode.Char c) m) =
        handle_key_event s (resolveNormalKey s.config c m)) ∧
    (∀ (s : Editor) (code : KeyCode) (m : KeyModifiers),
      (∀ c : Char, code ≠ KeyCode.Char c) →
      handle_normal_event s (Event.Key code m) = StepResult.cont s) := by
  refine ⟨rfl, rfl, rfl, ?_, ?_, ?_⟩
  · intro m h1 h2
    have hs : m ≠ KeyModifiers.SHIFT := by
      intro hm; rw [hm] at h2; simp [KeyModifiers.SHIFT] at h2
    have hc : m ≠ KeyModifiers.CONTROL := by
      intro hm; rw [hm] at h1; simp [KeyModifiers.CONTROL] at h1
    simp [modTag, hs, hc]
  · intro s c m
    simp only [handle_normal_event, resolveNormalKey, modTag]
    cases h : lookupKey s.config.keys.normal
        ((if m = KeyModifiers.SHIFT then "S-"
          else if m = KeyModifiers.CONTROL then "C-" else "") ++ c.toString) with
    | none => simp [h, handle_key_event]
    | some ka => simp [h]
  · intro s code m h
    cases code <;> first | rfl | exact absurd rfl (h _)

/-- C4 witness at concrete inputs: Shift plus Control yields the empty
modifier tag, and a non-character key event (Esc) in Normal mode leaves
the state unchanged. -/
theorem c4_witness :
    modTag ⟨true, true, false, false, false, false⟩ = "" ∧
    handle_normal_event e0 (Event.Key KeyCode.Esc KeyModifiers.NONE) = StepResult.cont e0 :=
  ⟨c4_keymap_resolution.2.2.2.1 ⟨true, true, false, false, false, false⟩ rfl rfl,
   c4_keymap_resolution.2.2.2.2.2 e0 KeyCode.Esc KeyModifiers.NONE
     (fun _ h => KeyCode.noConfusion h)⟩

/-- C5: in Insert mode every character key event bypasses the keymap and
issues exactly one buffer insert call carrying that character, Escape
instead switches the buffer to Normal mode without inserting, and the
scenario pressing i (bound to InsertMode) then typing a and b produces
exactly the two insert calls for "a" then "b", in press order. -/
theorem c5_insert_mode :
    (∀ (s : Editor) (c : Char) (m : KeyModifiers),
      handle_insert_event s (Event.Key (KeyCode.Char c) m) =
        StepResult.cont (bufCall s (BufCall.insert c.toString)) ∧
      (bufCall s (BufCall.insert c.toString)).current_buffer.calls =
        s.current_buffer.calls ++ [BufCall.insert c.toString]) ∧
    (∀ (s : Editor) (m : KeyModifiers),
      handle_insert_event s (Event.Key KeyCode.Esc m) =
        StepResult.cont (enter_normal_mode s) ∧
      (enter_normal_mode s).current_buffer.mode = Mode.Normal ∧
      (enter_normal_mode s).current_buffer.calls = s.current_buffer.calls) ∧
    (routeEvents e0 [Event.Key (KeyCode.Char 'i') KeyModifiers.NONE,
                     Event.Key (KeyCode.Char 'a') KeyModifiers.NONE,
                     Event.Key (KeyCode.Char 'b') KeyModifiers.NONE]).state.current_buffer.calls =
      [BufCall.insert "a", BufCall.insert "b"] := by
  refine ⟨fun s c m => ⟨rfl, rfl⟩, fun s m => ⟨rfl, rfl, rfl⟩, ?_⟩
  rfl

/-- C6: every resolved KeyAction that is not of the Single shape, an
absent binding, and an unbound Normal-mode key all leave the editor state
completely unchanged (same cursor, buffer, mode, dirty flag, no error
write, no terminal command). -/
theorem c6_non_single_noop :
    (∀ (s : Editor) (ka : KeyAction), (∀ a : Action, ka ≠ KeyAction.Single a) →
      handle_key_event s (some ka) = StepResult.cont s) ∧
    (∀ s : Editor, handle_key_event s none = StepResult.cont s) ∧
    (∀ (s : Editor) (c : Char) (m : KeyModifiers),
      resolveNormalKey s.config c m = none →
      handle_normal_event s (Event.Key (KeyCode.Char c) m) = StepResult.cont s) := by
  refine ⟨?_, fun s => rfl, ?_⟩
  · intro s ka h
    cases ka with
    | Single a => exact absurd rfl (h a)
    | Multiple l => rfl
    | Nested m => rfl
    | Repeating n k => rfl
  · intro s c m h
    have := c4_keymap_resolution.2.2.2.2.1 s c m
    rw [this, h]
    rfl

/-- C6 witness at concrete inputs: a Multiple binding and the unbound
key z both leave the concrete editor untouched. -/
theorem c6_witness :
    handle_key_event e0 (some (KeyAction.Multiple [])) = StepResult.cont e0 ∧
    handle_normal_event e0 (Event.Key (KeyCode.Char 'z') KeyModifiers.NONE) =
      StepResult.cont e0 :=
  ⟨c6_non_single_noop.1 e0 (KeyAction.Multiple []) (fun _ h => KeyAction.noConfusion h),
   c6_non_single_noop.2.2 e0 'z' KeyModifiers.NONE rfl⟩

/-- C7: when the buffer's save fails, dispatching Save appends the error
display text to the error stream exactly once and otherwise only records
the delegated save call: the editor does not exit, and mode, cursor,
buffer content, dirty flag and terminal output are all unchanged. -/
theorem c7_save_failure (s : Editor) (e : String)
    (h : s.current_buffer.saveResult = some e) :
    handle_single_action s Action.Save =
      StepResult.cont { bufCall s BufCall.save with errStream := s.errStream ++ [e] } ∧
    (stepAction s Action.Save).current_buffer.mode = s.current_buffer.mode ∧
    (stepAction s Action.Save).current_buffer.cursor = s.current_buffer.cursor ∧
    (stepAction s Action.Save).current_buffer.buffer = s.current_buffer.buffer ∧
    (stepAction s Action.Save).current_buffer.render_buffer = s.current_buffer.render_buffer ∧
    (stepAction s Action.Save).out = s.out ∧
    (stepAction s Action.Save).errStream = s.errStream ++ [e] := by
  have hs : handle_single_action s Action.Save =
      StepResult.cont { bufCall s BufCall.save with errStream := s.errStream ++ [e] } := by
    simp only [handle_single_action, h]
  refine ⟨hs, ?_, ?_, ?_, ?_, ?_, ?_⟩ <;>
    simp [stepAction, hs, StepResult.state, bufCall]

/-- C7 witness at a concrete input: a save failing with display text
"boom" writes exactly that one line to the error stream and changes
nothing else. -/
theorem c7_witness :
    handle_single_action eFail Action.Save =
      StepResult.cont { bufCall eFail BufCall.save with errStream := ["boom"] } ∧
    (stepAction eFail Action.Save).current_buffer.mode = eFail.current_buffer.mode ∧
    (stepAction eFail Action.Save).current_buffer.cursor = eFail.current_buffer.cursor ∧
    (stepAction eFail Action.Save).current_buffer.buffer = eFail.current_buffer.buffer ∧
    (stepAction eFail Action.Save).current_buffer.render_buffer = eFail.current_buffer.render_buffer ∧
    (stepAction eFail Action.Save).out = eFail.out ∧
    (stepAction eFail Action.Save).errStream = ["boom"] :=
  c7_save_failure eFail "boom" rfl

/-- C8: dispatching InsertMode then NormalMode from any state returns the
mode to Normal and changes nothing else in the editor state: cursor,
buffer content, dirty flag, call trace and error stream are untouched,
and the only outputs are the two queued cursor-style commands. -/
theorem c8_mode_roundtrip (s : Editor) :
    stepAction (stepAction s Action.InsertMode) Action.NormalMode =
      { s with
        current_buffer := { s.current_buffer with mode := Mode.Normal },
        out := s.out ++ [TermCmd.SetStyle CursorStyle.BlinkingBar,
                         TermCmd.SetStyle CursorStyle.DefaultUserShape] } := by
  simp [stepAction, handle_single_action, enter_insert_mode, enter_normal_mode,
    StepResult.state]

/-- C9: dispatching Quit emits the leave-alternate-screen and the
disable-raw terminal commands, in that order, before the process exits
with code 0 (so the exit never happens without both releases recorded
first), and no action other than Quit exits the process. -/
theorem c9_quit (s : Editor) :
    handle_single_action s Action.Quit =
      StepResult.exited 0
        { s with out := s.out ++ [TermCmd.LeaveAlternateScreen, TermCmd.DisableRaw] } ∧
    (∀ a : Action, a ≠ Action.Quit → (handle_single_action s a).isCont = true) := by
  refine ⟨rfl, ?_⟩
  intro a h
  cases a with
  | Quit => exact absurd rfl h
  | MoveUp =>
      simp only [handle_single_action]
      split <;> rfl
  | MoveLeft =>
      simp only [handle_single_action]
      split <;> rfl
  | Save =>
      simp only [handle_single_action]
      split <;> rfl
  | _ => rfl

/-- C9 witness at a concrete input: Quit from the concrete editor exits
with code 0 after recording both terminal releases, and Save does not
exit. -/
theorem c9_witness :
    handle_single_action e0 Action.Quit =
      StepResult.exited 0
        { e0 with out := [TermCmd.LeaveAlternateScreen, TermCmd.DisableRaw] } ∧
    (handle_single_action e0 Action.Save).isCont = true :=
  ⟨(c9_quit e0).1, (c9_quit e0).2 Action.Save (by decide)⟩

/-- C10: cursor coordinates are u16, so MoveDown computes
(row + 1) mod 2^16 and MoveRight computes (column + 1) mod 2^16; at
65535 each wraps to 0 instead of growing without bound. -/
theorem c10_u16_wrap (s : Editor) :
    (stepAction s Action.MoveDown).current_buffer.cursor.y =
      (s.current_buffer.cursor.y + 1) % 65536 ∧
    (stepAction s Action.MoveRight).current_buffer.cursor.x =
      (s.current_buffer.cursor.x + 1) % 65536 ∧
    (s.current_buffer.cursor.y = 65535 →
      (stepAction s Action.MoveDown).current_buffer.cursor.y = 0) ∧
    (s.current_buffer.cursor.x = 65535 →
      (stepAction s Action.MoveRight).current_buffer.cursor.x = 0) := by
  refine ⟨stepAction_moveDown_y s, stepAction_moveRight_x s, ?_, ?_⟩
  · intro h
    rw [stepAction_moveDown_y, h]
    decide
  · intro h
    rw [stepAction_moveRight_x, h]
    decide

/-- C10 witness at a concrete input: from (65535, 65535) MoveDown wraps
the row to 0 and MoveRight wraps the column to 0. -/
theorem c10_witness :
    (stepAction eMax Action.MoveDown).current_buffer.cursor.y = 0 ∧
    (stepAction eMax Action.MoveRight).current_buffer.cursor.x = 0 :=
  ⟨(c10_u16_wrap eMax).2.2.1 rfl, (c10_u16_wrap eMax).2.2.2 rfl⟩

end Pep
